import Mathlib

/-!
Verification of the OIDC device-flow authentication manager
(`src/evergreen_mcp/oidc_auth.py` of the evergreen-mcp-server repository).

The Python code is shallowly embedded as executable Lean functions.
External effects (the JWT decoder, the system clock, HTTP exchanges and the
file system) are passed in explicitly as oracles bundled in a `World`
structure, so every branch of the Python control flow (including every
`try`/`except` arm) appears as an explicit branch of a total Lean function.
Time is modelled in integer seconds.  The device-flow polling loop reads the
wall clock through an oracle, one reading per ceiling check, exactly as the
source calls the system clock once per loop iteration; the sleeps and
network exchanges advance that clock in ways the model leaves unconstrained,
so clock facts (such as divergence of real time) enter as hypotheses.
-/

deriving instance DecidableEq for Except

namespace EvergreenOIDC

/-- Decoded JWT payload claims used by the manager: `exp`, `email`,
`preferred_username`, `sub`.  A field is `none` when the claim is absent from
the payload. -/
structure Claims where
  exp : Option Int
  email : Option String
  preferred_username : Option String
  sub : Option String
deriving DecidableEq

/-- A token JSON object (body of a token-endpoint response, or content of the
token file): `access_token`, `refresh_token`, `expires_in`, `expires_at`.
A field is `none` when the key is absent. -/
structure TokenJson where
  access_token : Option String
  refresh_token : Option String
  expires_in : Option Int
  expires_at : Option Int
deriving DecidableEq

/-- The JWT decoding oracle: `pyjwt.decode(token, verify_signature=False)`.
`Except.error e` models the decoder raising an exception with text `e`
(malformed structure or a non-JSON payload). -/
abbrev Decode := String → Except String Claims

/-- Python truthiness of an optional string: `None` and the empty string are
falsy. -/
def strTruthy : Option String → Bool
  | none => false
  | some s => decide (s ≠ "")

/-- Python `a or b` on optional strings, as used for
`claims.get("preferred_username") or claims.get("sub")`. -/
def pyOrStr (a b : Option String) : Option String :=
  if strTruthy a then a else b

/-- Embedding of `OIDCAuthManager._normalize_token_data`: if the response
carries `expires_in` and not `expires_at`, set
`expires_at := time.time() + expires_in`. -/
def normalizeTokenData (now : Int) (td : TokenJson) : TokenJson :=
  if td.expires_in.isSome && td.expires_at.isNone then
    { td with expires_at := some (now + td.expires_in.getD 0) }
  else td

/-- Embedding of `OIDCAuthManager._check_token_expiry`.  Returns
`(is_valid, seconds_remaining)`.  A falsy `access_token`, a decoding failure,
or a falsy `exp` claim (absent, or present with value `0`) yields
`(false, 0)`; otherwise validity is `exp - now > 60` (the 60-second buffer)
and the raw remaining time `exp - now` is returned. -/
def checkTokenExpiry (decode : Decode) (now : Int) (td : TokenJson) : Bool × Int :=
  if !strTruthy td.access_token then (false, 0)
  else
    match decode (td.access_token.getD "") with
    | .error _ => (false, 0)
    | .ok claims =>
      let exp := claims.exp.getD 0
      if exp ≠ 0 then (decide (exp - now > 60), exp - now)
      else (false, 0)

/-- Python `email.split("@")[0]`: the part of the string before the first
`@` (the whole string when no `@` occurs). -/
def localPart (email : String) : String :=
  String.mk (email.data.takeWhile (fun ch => ch ≠ '@'))

/-- Python `"@" in email`: substring containment of the single character
`@`. -/
def containsAt (s : String) : Bool :=
  s.data.contains '@'

/-- Message raised by `_extract_user_id` when the token cannot be decoded
at all; `e` is the decoder's exception text. -/
def malformedMsg (e : String) : String :=
  "Token is malformed and cannot be decoded: " ++ e ++
    ". Please re-authenticate by removing your token file and restarting."

/-- Message raised by `_extract_user_id` when the payload decodes but none of
the identity claims is usable. -/
def missingClaimsMsg : String :=
  "Token is missing required identity claims (email, preferred_username, sub). " ++
    "Please re-authenticate by removing your token file and restarting."

/-- The guard of the email branch of `_extract_user_id`:
`if email and \x22@\x22 in email`. -/
def emailUsable (c : Claims) : Bool :=
  strTruthy c.email && containsAt (c.email.getD "")

/-- Embedding of `OIDCAuthManager._extract_user_id`.  Both failure modes are
values of the single error type (`Except.error` carrying the message), as in
the source both raise `OIDCAuthenticationError` and differ only in message. -/
def extractUserId (decode : Decode) (accessToken : String) : Except String String :=
  match decode accessToken with
  | .error e => .error (malformedMsg e)
  | .ok claims =>
    if emailUsable claims then
      .ok (localPart (claims.email.getD ""))
    else
      let userId := pyOrStr claims.preferred_username claims.sub
      if strTruthy userId then .ok (userId.getD "")
      else .error missingClaimsMsg

/-! ## Token store (`_save_token`) -/

/-- State of the temporary sibling file (`<token_file>.tmp`): absent, holding
an incomplete write, or holding a completely written record. -/
inductive TempState where
  | absent
  | incomplete
  | written (td : TokenJson)
deriving DecidableEq

/-- Durable file-system state: the target token file's content (parsed, or
`none` when the file does not exist) and the temporary file's state. -/
structure FsState where
  target : Option TokenJson
  temp : TempState
deriving DecidableEq

/-- Outcomes of the individual file-system operations performed by
`_save_token`: directory creation, opening the temp file for write, the
`json.dump`/`flush`/`fsync` sequence, the atomic `replace`, and the cleanup
`unlink`. -/
structure SaveWorld where
  mkdirOk : Bool
  openOk : Bool
  writeOk : Bool
  replaceOk : Bool
  unlinkOk : Bool
deriving DecidableEq

/-- Cleanup arm of `_save_token`'s `except` clause: `if temp_file.exists():
try: temp_file.unlink() except OSError: pass`.  The temp file is removed only
when it exists and the unlink itself succeeds. -/
def removeTempIfAble (w : SaveWorld) (fs : FsState) : FsState :=
  if fs.temp = TempState.absent then fs
  else if w.unlinkOk then { fs with temp := TempState.absent }
  else fs

/-- Embedding of `OIDCAuthManager._save_token`.  `configured` is whether a
token file path is configured.  The `Except` codomain records whether an
exception escapes to the caller: every failure of an individual operation is
caught by one of the source's `except` clauses (mkdir failures by
`except (OSError, PermissionError)`, write and rename failures by the blanket
`except Exception`, unlink failures by `except OSError`), so every branch
returns `Except.ok`. -/
def saveToken (configured : Bool) (w : SaveWorld) (fs : FsState) (record : TokenJson) :
    Except String FsState :=
  if !configured then .ok fs
  else if !w.mkdirOk then .ok fs
  else if !w.openOk then .ok (removeTempIfAble w fs)
  else if !w.writeOk then .ok (removeTempIfAble w { fs with temp := TempState.incomplete })
  else if !w.replaceOk then .ok (removeTempIfAble w { fs with temp := TempState.written record })
  else .ok { target := some record, temp := TempState.absent }

/-! ## Manager state and the external world -/

/-- In-memory state of an `OIDCAuthManager` instance: the token triple
(`_access_token`, `_refresh_token`, `_user_id`), whether the OAuth2 client
and its OIDC metadata have been initialised (`_client`/`_metadata`), the
static configuration bit for the token file path, and the durable
file-system state reachable through that path. -/
structure ManagerState where
  access_token : Option String
  refresh_token : Option String
  user_id : Option String
  clientInit : Bool
  tokenFileConfigured : Bool
  fs : FsState
deriving DecidableEq

/-- Observable side effects of the manager's operations, used to state
frame properties. -/
inductive Effect where
  | metadataFetch
  | tokenFileRead
  | refreshPost
  | deviceFlowRun
deriving DecidableEq

/-- Outcome of the refresh POST to the token endpoint: a raised transport
exception, or an HTTP response with a status code and a body
(`Except.error` when the body is not parseable JSON). -/
inductive HttpResp where
  | exn
  | resp (status : Nat) (body : Except String TokenJson)
deriving DecidableEq

/-- A poll response body as seen by the device-flow loop: the token-field
view (used on HTTP 200) and the error-field view (used otherwise). -/
structure PollJson where
  token : TokenJson
  error : Option String
  error_description : Option String
deriving DecidableEq

/-- One HTTP response to a device-flow poll: status code, parsed JSON body
when the body is parseable, and the raw response text. -/
structure PollResp where
  status : Nat
  json : Except String PollJson
  text : String
deriving DecidableEq

/-- One attempt to poll the token endpoint: a raised transport exception or a
received response. -/
inductive PollAttempt where
  | exn (msg : String)
  | resp (r : PollResp)

/-- Body of the device-authorization-endpoint response. -/
structure DeviceCodeJson where
  device_code : Option String
  user_code : Option String
  verification_uri : Option String
  verification_uri_complete : Option String
  interval : Option Int
deriving DecidableEq

/-- The external world: the JWT decoder, the current time, and the scripted
outcomes of every network and file-system interaction the manager can
perform.  `pollStream k` is the outcome of the `k`-th device-flow poll.
`startTime` is the wall-clock reading taken just before the polling loop and
`pollClock k` the reading taken at the loop's `k`-th ceiling check; the
sleeps and network round trips advance the wall clock between readings, in
ways the model leaves unconstrained. -/
structure World where
  decode : Decode
  now : Int
  metadataOk : Bool
  filePresent : Bool
  fileContent : Except String TokenJson
  refreshResp : HttpResp
  save : SaveWorld
  deviceCodeResp : Except String DeviceCodeJson
  pollStream : Nat → PollAttempt
  startTime : Int
  pollClock : Nat → Int

/-- Embedding of `OIDCAuthManager._get_client`: when the client is not yet
initialised, fetch the OIDC metadata (a network call); failure propagates as
an exception and leaves the state unchanged, success records the
initialisation. -/
def getClient (w : World) (s : ManagerState) :
    Except String Unit × ManagerState × List Effect :=
  if s.clientInit then (.ok (), s, [])
  else if w.metadataOk then (.ok (), { s with clientInit := true }, [.metadataFetch])
  else (.error "Failed to fetch OIDC metadata", s, [.metadataFetch])

/-- Embedding of `OIDCAuthManager.check_token_file`: return the parsed token
file content when it holds a currently valid access token; when it holds an
expired access token together with a truthy refresh token, store that refresh
token in memory; any read or parse error is caught and yields `none`. -/
def checkTokenFile (w : World) (s : ManagerState) :
    Option TokenJson × ManagerState × List Effect :=
  if !s.tokenFileConfigured then (none, s, [])
  else if !w.filePresent then (none, s, [])
  else
    match w.fileContent with
    | .error _ => (none, s, [.tokenFileRead])
    | .ok td =>
      if td.access_token.isSome then
        if (checkTokenExpiry w.decode w.now td).1 then (some td, s, [.tokenFileRead])
        else if strTruthy td.refresh_token then
          (none, { s with refresh_token := td.refresh_token }, [.tokenFileRead])
        else (none, s, [.tokenFileRead])
      else (none, s, [.tokenFileRead])

/-- The HTTP-200 branch of `OIDCAuthManager.refresh_token` (lines 293 to 311
of the source): normalise the body, read the new access token, compute the
new refresh token with the previous one as fallback, extract the identity,
and only then commit all three and save.  A missing `access_token` key or an
identity-extraction failure is caught by the enclosing `except` and yields
`none` with the state unchanged. -/
def refreshSuccessPath (w : World) (s : ManagerState) (body : TokenJson) :
    Option TokenJson × ManagerState :=
  let td := normalizeTokenData w.now body
  match td.access_token with
  | none => (none, s)
  | some a =>
    match extractUserId w.decode a with
    | .error _ => (none, s)
    | .ok uid =>
      let s1 : ManagerState :=
        { s with access_token := some a,
                 refresh_token := match td.refresh_token with
                   | some r => some r
                   | none => s.refresh_token,
                 user_id := some uid }
      match saveToken s.tokenFileConfigured w.save s.fs td with
      | .ok fs1 => (some td, { s1 with fs := fs1 })
      | .error _ => (none, s1)

/-- Embedding of `OIDCAuthManager.refresh_token`.  Returns the token record
on success and `none` on any failure (falsy stored refresh token, metadata
fetch failure, transport exception, non-200 status, unparseable 200 body, or
a failure inside `refreshSuccessPath`). -/
def refreshToken (w : World) (s : ManagerState) :
    Option TokenJson × ManagerState × List Effect :=
  if !strTruthy s.refresh_token then (none, s, [])
  else
    match getClient w s with
    | (.error _, s1, e1) => (none, s1, e1)
    | (.ok _, s1, e1) =>
      match w.refreshResp with
      | .exn => (none, s1, e1 ++ [.refreshPost])
      | .resp status body =>
        if status = 200 then
          match body with
          | .error _ => (none, s1, e1 ++ [.refreshPost])
          | .ok bj =>
            let p := refreshSuccessPath w s1 bj
            (p.1, p.2, e1 ++ [.refreshPost])
        else (none, s1, e1 ++ [.refreshPost])

/-! ## Device flow (`device_flow_auth`) -/

/-- Result of handling one non-200 poll response: keep polling with a (possibly
increased) interval, or raise an authentication failure. -/
inductive StepResult where
  | again (newInterval : Int)
  | failure (msg : String)
deriving DecidableEq

/-- Error parsing of a non-200 poll response (lines 466 to 478 of the
source): the `(error, error_description)` pair from the JSON body, or the
synthetic `unknown_error` with the raw response text when the body is not
JSON. -/
def parsePollError (r : PollResp) : String × String :=
  match r.json with
  | .ok j => (j.error.getD "unknown_error", j.error_description.getD "")
  | .error _ => ("unknown_error", r.text)

/-- Error dispatch of the polling loop (lines 487 to 509 of the source):
`authorization_pending` continues, `slow_down` continues with the interval
increased by 2, `expired_token` fails, any other response with status 401
continues, anything else fails with the server-provided error and
description. -/
def handlePollError (r : PollResp) (interval : Int) : StepResult :=
  let p := parsePollError r
  if p.1 = "authorization_pending" then .again interval
  else if p.1 = "slow_down" then .again (interval + 2)
  else if p.1 = "expired_token" then
    .failure "Device code expired - please restart authentication"
  else if r.status = 401 then .again interval
  else .failure ("Authentication failed: " ++ p.1 ++ " - " ++ p.2)

/-- The HTTP-200 branch of the polling loop (lines 446 to 462 of the source):
normalise, validate the identity before committing any state, then update the
triple atomically and save.  A missing `access_token` key becomes a wrapped
failure via the outer `except`; an identity-extraction failure re-raises the
`OIDCAuthenticationError` unchanged. -/
def devicePollSuccess (w : World) (s : ManagerState) (j : PollJson) :
    Except String TokenJson × ManagerState :=
  let td := normalizeTokenData w.now j.token
  match td.access_token with
  | none => (.error "Device flow authentication error: missing access_token", s)
  | some a =>
    match extractUserId w.decode a with
    | .error m => (.error m, s)
    | .ok uid =>
      let s1 : ManagerState :=
        { s with access_token := some a, refresh_token := td.refresh_token,
                 user_id := some uid }
      match saveToken s.tokenFileConfigured w.save s.fs td with
      | .ok fs1 => (.ok td, { s1 with fs := fs1 })
      | .error m => (.error ("Device flow authentication error: " ++ m), s1)

/-- The polling loop of `device_flow_auth` (lines 427 to 509 of the source).
`fuel` is a structural recursion bound (a modelling artifact: `none` means the
bound was exhausted, not a behaviour of the code); `k` indexes the loop
iterations; `interval` is in seconds.  Each iteration first reads the wall
clock and checks the 300-second ceiling against the start reading, then
sleeps for the current interval (the sleep's only observable consequence is
whatever it contributes to later clock readings), then polls once. -/
def pollLoop (w : World) (s : ManagerState) :
    Nat → Nat → Int → Option (Except String TokenJson × ManagerState)
  | 0, _, _ => none
  | fuel + 1, k, interval =>
    if w.pollClock k - w.startTime > 300 then
      some (.error "Device flow timed out after 300 seconds", s)
    else
      match w.pollStream k with
      | .exn m => some (.error ("Device flow authentication error: " ++ m), s)
      | .resp r =>
        if r.status = 200 then
          match r.json with
          | .error m => some (.error ("Device flow authentication error: " ++ m), s)
          | .ok j => some (devicePollSuccess w s j)
        else
          match handlePollError r interval with
          | .again interval1 => pollLoop w s fuel (k + 1) interval1
          | .failure m => some (.error m, s)

/-- Embedding of `OIDCAuthManager.device_flow_auth`: initialise the client,
request a device code (`interval` defaults to 5 when the server omits it),
then run the polling loop.  Transport failures and a missing `device_code`
key are wrapped by the outer `except` into an authentication failure. -/
def deviceFlowAuth (w : World) (fuel : Nat) (s : ManagerState) :
    Option (Except String TokenJson × ManagerState × List Effect) :=
  match getClient w s with
  | (.error m, s1, e1) =>
    some (.error ("Device flow authentication error: " ++ m), s1, e1 ++ [.deviceFlowRun])
  | (.ok _, s1, e1) =>
    match w.deviceCodeResp with
    | .error m =>
      some (.error ("Device flow authentication error: " ++ m), s1, e1 ++ [.deviceFlowRun])
    | .ok dc =>
      match dc.device_code with
      | none =>
        some (.error "Device flow authentication error: missing device_code", s1,
          e1 ++ [.deviceFlowRun])
      | some _ =>
        match pollLoop w s1 fuel 0 (dc.interval.getD 5) with
        | none => none
        | some (r, s2) => some (r, s2, e1 ++ [.deviceFlowRun])

/-! ## Main flow (`ensure_authenticated`) -/

/-- Step 5 of `ensure_authenticated` (lines 581 to 589 of the source): run the
device flow; failures propagate, success adopts the returned record and
extracts the identity, an identity failure here propagating as well. -/
def deviceStage (w : World) (fuel : Nat) (s : ManagerState) (effs : List Effect) :
    Option (Except String Bool × ManagerState × List Effect) :=
  match deviceFlowAuth w fuel s with
  | none => none
  | some (.error m, s1, e) => some (.error m, s1, effs ++ e)
  | some (.ok td, s1, e) =>
    let s2 : ManagerState :=
      { s1 with access_token := td.access_token, refresh_token := td.refresh_token }
    match extractUserId w.decode (td.access_token.getD "") with
    | .error m => some (.error m, s2, effs ++ e)
    | .ok uid => some (.ok true, { s2 with user_id := some uid }, effs ++ e)

/-- Step 4 of `ensure_authenticated` (lines 562 to 579 of the source): when a
refresh token is held, try the refresh; on success adopt the record and
extract the identity, a malformed refreshed token falling through to the
device flow; on refresh failure fall through to the device flow. -/
def refreshStage (w : World) (fuel : Nat) (s : ManagerState) (effs : List Effect) :
    Option (Except String Bool × ManagerState × List Effect) :=
  if strTruthy s.refresh_token then
    match refreshToken w s with
    | (some td, s1, e) =>
      let s2 : ManagerState :=
        { s1 with access_token := td.access_token,
                  refresh_token := match td.refresh_token with
                    | some r => some r
                    | none => s1.refresh_token }
      match extractUserId w.decode (td.access_token.getD "") with
      | .ok uid => some (.ok true, { s2 with user_id := some uid }, effs ++ e)
      | .error _ => deviceStage w fuel { s2 with access_token := none } (effs ++ e)
    | (none, s1, e) => deviceStage w fuel s1 (effs ++ e)
  else deviceStage w fuel s effs

/-- Embedding of `OIDCAuthManager.ensure_authenticated`: (1) if an in-memory
access token is held and reported valid, return success immediately; (2)
initialise the client, metadata failure propagating; (3) adopt a valid token
file, an identity failure being treated as cache corruption; (4) try refresh;
(5) run the device flow. -/
def ensureAuthenticated (w : World) (fuel : Nat) (s : ManagerState) :
    Option (Except String Bool × ManagerState × List Effect) :=
  if strTruthy s.access_token &&
      (checkTokenExpiry w.decode w.now ⟨s.access_token, s.refresh_token, none, none⟩).1 then
    some (.ok true, s, [])
  else
    match getClient w s with
    | (.error m, s1, e1) => some (.error m, s1, e1)
    | (.ok _, s1, e1) =>
      match checkTokenFile w s1 with
      | (some td, s2, e2) =>
        let s3 : ManagerState :=
          { s2 with access_token := td.access_token, refresh_token := td.refresh_token }
        match extractUserId w.decode (td.access_token.getD "") with
        | .ok uid => some (.ok true, { s3 with user_id := some uid }, e1 ++ e2)
        | .error _ => refreshStage w fuel { s3 with access_token := none } (e1 ++ e2)
      | (none, s2, e2) => refreshStage w fuel s2 (e1 ++ e2)

/-! ## Concrete inputs used by witnesses and counterexamples -/

/-- A decoder that fails on every token. -/
def decodeFail : Decode := fun _ => .error "Invalid token"

/-- A decoder accepting exactly the token string `good`, whose payload has a
far-future `exp` and identity claim `sub = u1`. -/
def dGood : Decode := fun t =>
  if t = "good" then .ok ⟨some 10000, none, none, some "u1"⟩
  else .error "Invalid token"

/-- A decoder accepting exactly the token string `tok`, whose payload carries
the claim `exp = 0`. -/
def dExpZero : Decode := fun t =>
  if t = "tok" then .ok ⟨some 0, none, none, none⟩
  else .error "Invalid token"

/-- A decoder accepting exactly the token string `t`, whose payload carries an
email claim without an at-sign together with a preferred username. -/
def dNoAt : Decode := fun t =>
  if t = "t" then .ok ⟨none, some "noat", some "pu", none⟩
  else .error "Invalid token"

/-- A world in which every interaction fails: metadata is available but the
refresh POST raises, the token file is absent, and the device flow cannot
start. -/
def baseWorld : World :=
  { decode := decodeFail, now := 0, metadataOk := true, filePresent := false,
    fileContent := .error "absent", refreshResp := .exn,
    save := ⟨true, true, true, true, true⟩, deviceCodeResp := .error "network",
    pollStream := fun _ => .exn "network", startTime := 0,
    pollClock := fun k => 5 * (k : Int) }

/-- A manager state holding only a refresh token, with the client already
initialised and a token file path configured. -/
def sBase : ManagerState :=
  ⟨none, some "R", none, true, true, ⟨none, TempState.absent⟩⟩

/-- The refresh response body `{access_token: good}` with no expiry fields. -/
def bodyNoExp : TokenJson := ⟨some "good", none, none, none⟩

/-- The refresh response body `{access_token: good, expires_in: 3600}`. -/
def bodyExpIn : TokenJson := ⟨some "good", none, some 3600, none⟩

/-- World whose refresh succeeds with a body carrying no expiry fields. -/
def wNoExp : World := { baseWorld with decode := dGood, refreshResp := .resp 200 (.ok bodyNoExp) }

/-- World whose refresh succeeds with a body carrying only `expires_in`. -/
def wExpIn : World := { baseWorld with decode := dGood, refreshResp := .resp 200 (.ok bodyExpIn) }

/-- A poll response carrying the error code `slow_down`. -/
def slowResp : PollResp :=
  ⟨400, .ok ⟨⟨none, none, none, none⟩, some "slow_down", none⟩, ""⟩

/-- A poll response carrying the error code `expired_token`. -/
def expiredResp : PollResp :=
  ⟨400, .ok ⟨⟨none, none, none, none⟩, some "expired_token", none⟩, ""⟩

/-- World in which the device-authorization endpoint supplies a 5-second poll
interval and the first poll answers `expired_token`. -/
def wExpired : World :=
  { baseWorld with
    deviceCodeResp := .ok ⟨some "dc", none, none, none, some 5⟩,
    pollStream := fun _ => .resp expiredResp }

/-- A manager state holding the in-memory access token `good`. -/
def sGood : ManagerState := { sBase with access_token := some "good" }

/-- A record with an access token and no other fields. -/
def recA : TokenJson := ⟨some "A", none, none, none⟩

/-! ## Helper lemmas -/

lemma save_token_isOk (c : Bool) (w : SaveWorld) (fs : FsState) (r : TokenJson) :
    ∃ fs1, saveToken c w fs r = .ok fs1 := by
  unfold saveToken
  split_ifs <;> exact ⟨_, rfl⟩

lemma getClient_frame (w : World) (s : ManagerState) :
    (getClient w s).2.1.access_token = s.access_token ∧
    (getClient w s).2.1.refresh_token = s.refresh_token ∧
    (getClient w s).2.1.user_id = s.user_id ∧
    (getClient w s).2.1.tokenFileConfigured = s.tokenFileConfigured ∧
    (getClient w s).2.1.fs = s.fs := by
  unfold getClient
  split_ifs <;> simp

lemma strTruthy_of_checkValid {decode : Decode} {now : Int} {td : TokenJson}
    (h : (checkTokenExpiry decode now td).1 = true) :
    strTruthy td.access_token = true := by
  by_contra hc
  have hf : strTruthy td.access_token = false := by
    revert hc
    cases strTruthy td.access_token <;> simp
  unfold checkTokenExpiry at h
  rw [hf] at h
  simp at h

/-! ## C7 -/

/-- C7: for every structurally invalid token input (missing or empty access
token, or a JWT the decoder rejects, which covers malformed structure and a
non-JSON payload), `checkTokenExpiry` evaluates to `(false, 0)`; the function
is total, mirroring the source's blanket exception handler, so no error is
raised. -/
theorem check_token_expiry_invalid_safe (decode : Decode) (now : Int) (td : TokenJson)
    (h : td.access_token = none ∨ td.access_token = some "" ∨
      ∃ m, decode (td.access_token.getD "") = .error m) :
    checkTokenExpiry decode now td = (false, 0) := by
  unfold checkTokenExpiry
  rcases h with h | h | ⟨m, hm⟩
  · simp [h, strTruthy]
  · simp [h, strTruthy]
  · rcases hat : td.access_token with _ | a
    · simp [strTruthy]
    · rw [hat] at hm
      simp only [Option.getD_some] at hm
      by_cases hae : a = "" <;> simp [hat, hm, strTruthy, hae]

/-- C7 witness: a concrete undecodable token yields `(false, 0)`. -/
theorem check_token_expiry_invalid_safe_witness :
    checkTokenExpiry decodeFail 0 recA = (false, 0) :=
  check_token_expiry_invalid_safe decodeFail 0 recA (Or.inr (Or.inr ⟨"Invalid token", rfl⟩))

/-! ## C3 -/

/-- C3 (amended): for every token whose decoded payload carries a nonzero
`exp` claim, `checkTokenExpiry` declares validity exactly when `exp - now`
exceeds 60 and returns the raw remaining seconds; tokens with `exp` more than
60 seconds in the future are valid with positive remaining time, tokens with
`exp` in the past are invalid with nonpositive remaining time.  (The source
treats a token carrying `exp = 0` like one with no `exp` claim and returns
`(false, 0)` for it, so the raw-remaining clause of the original claim holds
only for nonzero `exp`.) -/
theorem check_token_expiry_exp (decode : Decode) (now : Int) (td : TokenJson)
    (a : String) (c : Claims) (e : Int)
    (ha : td.access_token = some a) (hne : a ≠ "")
    (hd : decode a = .ok c) (he : c.exp = some e) (hz : e ≠ 0) :
    checkTokenExpiry decode now td = (decide (60 < e - now), e - now) ∧
    (now + 60 < e →
      (checkTokenExpiry decode now td).1 = true ∧ 0 < (checkTokenExpiry decode now td).2) ∧
    (e < now →
      (checkTokenExpiry decode now td).1 = false ∧ (checkTokenExpiry decode now td).2 ≤ 0) := by
  have hmain : checkTokenExpiry decode now td = (decide (60 < e - now), e - now) := by
    unfold checkTokenExpiry
    simp [ha, strTruthy, hne, hd, he, hz]
  refine ⟨hmain, fun hfut => ?_, fun hpast => ?_⟩
  · rw [hmain]
    constructor
    · simp only [decide_eq_true_eq]
      omega
    · omega
  · rw [hmain]
    constructor
    · simp only [decide_eq_false_iff_not]
      omega
    · omega

/-- C3 witness: a token with `exp = 10000` at time 0 is valid with 10000
seconds remaining. -/
theorem check_token_expiry_exp_witness :
    checkTokenExpiry dGood 0 ⟨some "good", none, none, none⟩ =
      (decide ((60:Int) < 10000 - 0), (10000:Int) - 0) :=
  (check_token_expiry_exp dGood 0 ⟨some "good", none, none, none⟩ "good"
    ⟨some 10000, none, none, some "u1"⟩ 10000 rfl (by decide) (by decide) rfl
    (by decide)).1

/-- C3 counterexample: a decodable token carrying the claim `exp = 0` at time
100.  The original claim demands the raw remaining seconds `0 - 100 = -100`,
but the source's falsy test on `exp` routes this token to the no-exp branch
and returns `(false, 0)`. -/
theorem check_token_expiry_cex :
    dExpZero "tok" = .ok ⟨some 0, none, none, none⟩ ∧
    checkTokenExpiry dExpZero 100 ⟨some "tok", none, none, none⟩ = (false, 0) ∧
    checkTokenExpiry dExpZero 100 ⟨some "tok", none, none, none⟩ ≠
      (decide ((60:Int) < 0 - 100), (0:Int) - 100) := by
  refine ⟨by decide, by decide, by decide⟩

/-! ## C2 -/

/-- C2: error dispatch of the device-flow polling loop, for every non-200
poll response: `authorization_pending` polls again with the interval
unchanged; `slow_down` polls again with the interval increased by exactly 2
(hence strictly larger); `expired_token` fails immediately with the
device-code-expired message; any other response with HTTP status 401 polls
again with the interval unchanged; any other error fails with a message
carrying the parsed error code and description. -/
theorem device_poll_error_dispatch (r : PollResp) (i : Int) (_hs : r.status ≠ 200) :
    ((parsePollError r).1 = "authorization_pending" → handlePollError r i = .again i) ∧
    ((parsePollError r).1 = "slow_down" →
      handlePollError r i = .again (i + 2) ∧ i < i + 2) ∧
    ((parsePollError r).1 = "expired_token" →
      handlePollError r i = .failure "Device code expired - please restart authentication") ∧
    ((parsePollError r).1 ≠ "authorization_pending" → (parsePollError r).1 ≠ "slow_down" →
      (parsePollError r).1 ≠ "expired_token" → r.status = 401 →
      handlePollError r i = .again i) ∧
    ((parsePollError r).1 ≠ "authorization_pending" → (parsePollError r).1 ≠ "slow_down" →
      (parsePollError r).1 ≠ "expired_token" → r.status ≠ 401 →
      handlePollError r i =
        .failure ("Authentication failed: " ++ (parsePollError r).1 ++ " - " ++
          (parsePollError r).2)) := by
  refine ⟨fun h => ?_, fun h => ?_, fun h => ?_, fun h1 h2 h3 h4 => ?_,
    fun h1 h2 h3 h4 => ?_⟩ <;>
    simp_all [handlePollError]

/-- C2 witness: a concrete `slow_down` response at interval 5 polls again at
interval 7. -/
theorem device_poll_error_dispatch_witness :
    handlePollError slowResp 5 = .again (5 + 2) ∧ (5:Int) < 5 + 2 :=
  (device_poll_error_dispatch slowResp 5 (by decide)).2.1 (by decide)

/-! ## C5 -/

/-- C5 (amended): `saveToken` never propagates an error (every file-system
failure is caught); with no token file path configured it is a no-op; a
directory-creation failure returns with all file state unchanged; the
previously persisted target file is unchanged in every outcome except a fully
successful write; and after a failure of the open/write/rename steps the
temporary file is removed whenever the unlink itself succeeds.  (The original
claim's unconditional removal of the temporary file fails when the unlink
raises, which the source swallows with `except OSError: pass`.) -/
theorem save_token_best_effort (c : Bool) (w : SaveWorld) (fs : FsState) (r : TokenJson) :
    (∃ fs1, saveToken c w fs r = .ok fs1) ∧
    (c = false → saveToken c w fs r = .ok fs) ∧
    (c = true → w.mkdirOk = false → saveToken c w fs r = .ok fs) ∧
    (∀ fs1, saveToken c w fs r = .ok fs1 →
      fs1.target = fs.target ∨ fs1 = ⟨some r, TempState.absent⟩) ∧
    (c = true → w.mkdirOk = true → w.unlinkOk = true →
      ¬(w.openOk = true ∧ w.writeOk = true ∧ w.replaceOk = true) →
      ∃ fs1, saveToken c w fs r = .ok fs1 ∧ fs1.temp = TempState.absent ∧
        fs1.target = fs.target) := by
  obtain ⟨mk, op, wr, rp, ul⟩ := w
  obtain ⟨tg, tp⟩ := fs
  cases c <;> cases mk <;> cases op <;> cases wr <;> cases rp <;> cases ul <;>
    cases tp <;> simp_all [saveToken, removeTempIfAble]

/-- C5 witness: with the write step failing and the unlink succeeding, the
save returns normally, the temporary file is gone and the target file is
untouched. -/
theorem save_token_best_effort_witness :
    ∃ fs1, saveToken true ⟨true, true, false, true, true⟩ ⟨none, TempState.absent⟩ recA =
      .ok fs1 ∧ fs1.temp = TempState.absent ∧ fs1.target = none :=
  (save_token_best_effort true ⟨true, true, false, true, true⟩ ⟨none, TempState.absent⟩
    recA).2.2.2.2 rfl rfl rfl (by decide)

/-- C5 counterexample: a write failure whose cleanup unlink also fails.  The
call still returns normally and leaves the target untouched, but the
temporary file remains on disk, contradicting the original claim that the
temporary file (if it exists) is removed. -/
theorem save_token_cex :
    saveToken true ⟨true, true, false, true, false⟩ ⟨none, TempState.absent⟩ recA =
      .ok ⟨none, TempState.incomplete⟩ ∧
    TempState.incomplete ≠ TempState.absent := by
  refine ⟨by decide, by decide⟩

/-! ## C4 -/

/-- C4 (amended): identity resolution order of `extractUserId`.  When decoding
fails, the malformed-token failure (carrying the decoder's message) is
raised.  When decoding succeeds: a truthy email claim containing an at-sign
yields the email's local part; otherwise a truthy `preferred_username` is
returned; otherwise a truthy `sub`; otherwise the distinct
missing-identity-claims failure is raised.  Both failures inhabit the same
error type and differ only in their message.  (The original claim's email
clause fails for an email claim that is present but empty or lacks an
at-sign: the source then falls through to `preferred_username`.) -/
theorem extract_user_id_resolution (decode : Decode) (t : String) :
    (∀ m, decode t = .error m → extractUserId decode t = .error (malformedMsg m)) ∧
    (∀ c, decode t = .ok c →
      (emailUsable c = true →
        extractUserId decode t = .ok (localPart (c.email.getD ""))) ∧
      (emailUsable c = false → strTruthy c.preferred_username = true →
        extractUserId decode t = .ok (c.preferred_username.getD "")) ∧
      (emailUsable c = false → strTruthy c.preferred_username = false →
        strTruthy c.sub = true → extractUserId decode t = .ok (c.sub.getD "")) ∧
      (emailUsable c = false → strTruthy c.preferred_username = false →
        strTruthy c.sub = false → extractUserId decode t = .error missingClaimsMsg)) ∧
    malformedMsg "detail" ≠ missingClaimsMsg := by
  refine ⟨fun m hm => by simp [extractUserId, hm], fun c hc => ?_, by decide⟩
  refine ⟨fun he => by simp [extractUserId, hc, he],
    fun he hp => by simp [extractUserId, hc, he, pyOrStr, hp],
    fun he hp hs => by simp [extractUserId, hc, he, pyOrStr, hp, hs],
    fun he hp hs => by simp [extractUserId, hc, he, pyOrStr, hp, hs]⟩

/-- C4 witness: with a non-usable email claim and a truthy preferred
username, the preferred username is returned. -/
theorem extract_user_id_resolution_witness :
    extractUserId dNoAt "t" =
      .ok ((⟨none, some "noat", some "pu", none⟩ : Claims).preferred_username.getD "") :=
  ((extract_user_id_resolution dNoAt "t").2.1 ⟨none, some "noat", some "pu", none⟩
    (by decide)).2.1 (by decide) (by decide)

/-- C4 counterexample: a payload whose email claim is present but contains no
at-sign, together with a preferred username.  The original claim requires the
email's local part (here the whole string, since it has no at-sign) to be
returned, but the source skips the email branch and returns the preferred
username. -/
theorem extract_user_id_cex :
    dNoAt "t" = .ok ⟨none, some "noat", some "pu", none⟩ ∧
    extractUserId dNoAt "t" = .ok "pu" ∧
    (Except.ok "pu" : Except String String) ≠ .ok (localPart "noat") := by
  refine ⟨by decide, by decide, by decide⟩

/-! ## Refresh-token machinery -/

lemma refreshSuccessPath_spec (w : World) (s : ManagerState) (body : TokenJson) :
    ((refreshSuccessPath w s body).1 = none → (refreshSuccessPath w s body).2 = s) ∧
    (∀ td, (refreshSuccessPath w s body).1 = some td →
      td = normalizeTokenData w.now body ∧
      ∃ a uid, td.access_token = some a ∧ extractUserId w.decode a = .ok uid ∧
        (refreshSuccessPath w s body).2.access_token = some a ∧
        (refreshSuccessPath w s body).2.refresh_token =
          (match td.refresh_token with | some r => some r | none => s.refresh_token) ∧
        (refreshSuccessPath w s body).2.user_id = some uid ∧
        saveToken s.tokenFileConfigured w.save s.fs td =
          .ok (refreshSuccessPath w s body).2.fs) := by
  obtain ⟨fs1, hfs⟩ :=
    save_token_isOk s.tokenFileConfigured w.save s.fs (normalizeTokenData w.now body)
  unfold refreshSuccessPath
  rcases hat : (normalizeTokenData w.now body).access_token with _ | a
  · simp [hat]
  · rcases hex : extractUserId w.decode a with m | uid
    · simp [hat, hex]
    · simp only [hat, hex, hfs]
      refine ⟨by simp, fun td htd => ?_⟩
      simp only [Option.some.injEq] at htd
      subst htd
      exact ⟨rfl, a, uid, hat, hex, by simp, by simp, by simp, by simp [hfs]⟩

lemma refresh_token_spec (w : World) (s : ManagerState) :
    ((refreshToken w s).1 = none →
      (refreshToken w s).2.1.access_token = s.access_token ∧
      (refreshToken w s).2.1.refresh_token = s.refresh_token ∧
      (refreshToken w s).2.1.user_id = s.user_id) ∧
    (∀ td, (refreshToken w s).1 = some td →
      ∃ body a uid, w.refreshResp = .resp 200 (.ok body) ∧
        td = normalizeTokenData w.now body ∧
        td.access_token = some a ∧
        extractUserId w.decode a = .ok uid ∧
        (refreshToken w s).2.1.access_token = some a ∧
        (refreshToken w s).2.1.refresh_token =
          (match td.refresh_token with | some r => some r | none => s.refresh_token) ∧
        (refreshToken w s).2.1.user_id = some uid ∧
        saveToken s.tokenFileConfigured w.save s.fs td =
          .ok (refreshToken w s).2.1.fs) := by
  rcases hrt : strTruthy s.refresh_token with _ | _
  · have h1 : (refreshToken w s).1 = none := by simp [refreshToken, hrt]
    have h2 : (refreshToken w s).2.1 = s := by simp [refreshToken, hrt]
    simp [h1, h2]
  · rcases hg : getClient w s with ⟨res, s1, e1⟩
    have hf := getClient_frame w s
    rw [hg] at hf
    obtain ⟨hfa, hfr, hfu, hfc, hffs⟩ := hf
    replace hfa : s1.access_token = s.access_token := hfa
    replace hfr : s1.refresh_token = s.refresh_token := hfr
    replace hfu : s1.user_id = s.user_id := hfu
    replace hfc : s1.tokenFileConfigured = s.tokenFileConfigured := hfc
    replace hffs : s1.fs = s.fs := hffs
    cases res with
    | error m =>
      have h1 : (refreshToken w s).1 = none := by simp [refreshToken, hrt, hg]
      have h2 : (refreshToken w s).2.1 = s1 := by simp [refreshToken, hrt, hg]
      simp [h1, h2, hfa, hfr, hfu]
    | ok u =>
      cases hr : w.refreshResp with
      | exn =>
        have h1 : (refreshToken w s).1 = none := by simp [refreshToken, hrt, hg, hr]
        have h2 : (refreshToken w s).2.1 = s1 := by simp [refreshToken, hrt, hg, hr]
        simp [h1, h2, hfa, hfr, hfu]
      | resp status body =>
        by_cases h200 : status = 200
        · subst h200
          cases body with
          | error m =>
            have h1 : (refreshToken w s).1 = none := by simp [refreshToken, hrt, hg, hr]
            have h2 : (refreshToken w s).2.1 = s1 := by simp [refreshToken, hrt, hg, hr]
            simp [h1, h2, hfa, hfr, hfu]
          | ok bj =>
            have h1 : (refreshToken w s).1 = (refreshSuccessPath w s1 bj).1 := by
              simp [refreshToken, hrt, hg, hr]
            have h2 : (refreshToken w s).2.1 = (refreshSuccessPath w s1 bj).2 := by
              simp [refreshToken, hrt, hg, hr]
            have hsp := refreshSuccessPath_spec w s1 bj
            constructor
            · intro hnone
              rw [h1] at hnone
              have hst := hsp.1 hnone
              rw [h2, hst]
              exact ⟨hfa, hfr, hfu⟩
            · intro td htd
              rw [h1] at htd
              obtain ⟨hnorm, a, uid, hta, hex, hsa, hsr, hsu, hsave⟩ := hsp.2 td htd
              rw [h2]
              refine ⟨bj, a, uid, rfl, hnorm, hta, hex, hsa, ?_, hsu, ?_⟩
              · rw [hsr, hfr]
              · rw [hfc, hffs] at hsave
                exact hsave
        · have h1 : (refreshToken w s).1 = none := by simp [refreshToken, hrt, hg, hr, h200]
          have h2 : (refreshToken w s).2.1 = s1 := by simp [refreshToken, hrt, hg, hr, h200]
          simp [h1, h2, hfa, hfr, hfu]

/-! ## C1 -/

/-- C1: every failing `refresh_token` call (falsy stored refresh token,
metadata-fetch failure, transport exception, non-200 status, unparseable 200
body, missing access token, or identity-extraction failure) returns `none`
and leaves the in-memory access token, refresh token and user id exactly as
they were; a `some` result occurs only for an HTTP 200 response whose access
token's identity extracts successfully, and then all three fields are
replaced together and the record is handed to the token store (persisting it
whenever a path is configured and the file-system operations succeed). -/
theorem refresh_token_atomic (w : World) (s : ManagerState) :
    ((refreshToken w s).1 = none →
      (refreshToken w s).2.1.access_token = s.access_token ∧
      (refreshToken w s).2.1.refresh_token = s.refresh_token ∧
      (refreshToken w s).2.1.user_id = s.user_id) ∧
    (∀ td, (refreshToken w s).1 = some td →
      ∃ body a uid, w.refreshResp = .resp 200 (.ok body) ∧
        td.access_token = some a ∧
        extractUserId w.decode a = .ok uid ∧
        (refreshToken w s).2.1.access_token = some a ∧
        (refreshToken w s).2.1.refresh_token =
          (match td.refresh_token with | some r => some r | none => s.refresh_token) ∧
        (refreshToken w s).2.1.user_id = some uid ∧
        saveToken s.tokenFileConfigured w.save s.fs td =
          .ok (refreshToken w s).2.1.fs ∧
        (s.tokenFileConfigured = true → w.save = ⟨true, true, true, true, true⟩ →
          (refreshToken w s).2.1.fs.target = some td)) := by
  obtain ⟨h1, h2⟩ := refresh_token_spec w s
  refine ⟨h1, fun td htd => ?_⟩
  obtain ⟨body, a, uid, hr, _, hta, hex, hsa, hsr, hsu, hsave⟩ := h2 td htd
  refine ⟨body, a, uid, hr, hta, hex, hsa, hsr, hsu, hsave, fun hc hw => ?_⟩
  rw [hc, hw] at hsave
  unfold saveToken at hsave
  simp at hsave
  rw [← hsave]

/-- C1 witness: a refresh whose POST raises a transport exception returns
`none` and preserves the token triple. -/
theorem refresh_token_atomic_witness :
    (refreshToken baseWorld sBase).2.1.access_token = sBase.access_token ∧
    (refreshToken baseWorld sBase).2.1.refresh_token = sBase.refresh_token ∧
    (refreshToken baseWorld sBase).2.1.user_id = sBase.user_id :=
  (refresh_token_atomic baseWorld sBase).1 (by decide)

/-! ## Normalisation lemmas -/

lemma normalize_expires_isSome (now : Int) (b : TokenJson)
    (h : b.expires_in.isSome ∨ b.expires_at.isSome) :
    (normalizeTokenData now b).expires_at.isSome := by
  rcases hin : b.expires_in with _ | n <;> rcases hat : b.expires_at with _ | t <;>
    simp_all [normalizeTokenData]

lemma normalize_expires_compute (now n : Int) (b : TokenJson)
    (hin : b.expires_in = some n) (hat : b.expires_at = none) :
    (normalizeTokenData now b).expires_at = some (now + n) := by
  simp [normalizeTokenData, hin, hat]

lemma normalize_refresh (now : Int) (b : TokenJson) :
    (normalizeTokenData now b).refresh_token = b.refresh_token := by
  unfold normalizeTokenData
  split_ifs <;> simp

lemma devicePollSuccess_spec (w : World) (s : ManagerState) (j : PollJson)
    (td1 : TokenJson) (s1 : ManagerState)
    (h : devicePollSuccess w s j = (.ok td1, s1)) :
    td1 = normalizeTokenData w.now j.token := by
  simp only [devicePollSuccess] at h
  split at h
  · simp at h
  · split at h
    · simp at h
    · split at h
      · simp only [Prod.mk.injEq, Except.ok.injEq] at h
        exact h.1.symm
      · simp at h

/-! ## C6 -/

/-- C6 (amended): every record persisted by a successful refresh is the
response body with expiry normalisation applied: whenever the body supplies
`expires_in` or `expires_at` (the derivable cases), the persisted record has
`expires_at` populated, and when the body supplies only `expires_in`,
`expires_at` is exactly `now + expires_in`, computed before persistence; the
same normalisation is applied to every record the device-flow success path
persists.  (The original unconditional claim fails when the token endpoint
supplies neither `expires_in` nor `expires_at`: the source then persists a
record with an access token and no `expires_at`.) -/
theorem persisted_record_expires (w : World) (s : ManagerState) (body td : TokenJson)
    (hr : w.refreshResp = .resp 200 (.ok body))
    (h : (refreshToken w s).1 = some td) :
    td = normalizeTokenData w.now body ∧
    ((body.expires_in.isSome ∨ body.expires_at.isSome) → td.expires_at.isSome) ∧
    (∀ n, body.expires_in = some n → body.expires_at = none →
      td.expires_at = some (w.now + n)) ∧
    saveToken s.tokenFileConfigured w.save s.fs td = .ok (refreshToken w s).2.1.fs ∧
    (∀ j td1 s1, devicePollSuccess w s j = (.ok td1, s1) →
      td1 = normalizeTokenData w.now j.token ∧
      ((j.token.expires_in.isSome ∨ j.token.expires_at.isSome) →
        td1.expires_at.isSome)) := by
  obtain ⟨_, hsome⟩ := refresh_token_spec w s
  obtain ⟨body2, a, uid, hr2, hnorm, _, _, _, _, _, hsave⟩ := hsome td h
  rw [hr] at hr2
  injection hr2 with _ hb
  injection hb with hb2
  subst hb2
  refine ⟨hnorm, fun hd => ?_, fun n hin hat => ?_, hsave, fun j td1 s1 hdp => ?_⟩
  · rw [hnorm]
    exact normalize_expires_isSome w.now body hd
  · rw [hnorm]
    exact normalize_expires_compute w.now n body hin hat
  · have hn1 := devicePollSuccess_spec w s j td1 s1 hdp
    refine ⟨hn1, fun hd => ?_⟩
    rw [hn1]
    exact normalize_expires_isSome w.now j.token hd

/-- C6 witness: a refresh body supplying only `expires_in = 3600` at time 0
is persisted with `expires_at = 0 + 3600`. -/
theorem persisted_record_expires_witness :
    (⟨some "good", none, some 3600, some 3600⟩ : TokenJson).expires_at =
      some (wExpIn.now + 3600) :=
  (persisted_record_expires wExpIn sBase bodyExpIn
    ⟨some "good", none, some 3600, some 3600⟩ (by decide) (by decide)).2.2.1 3600
    (by decide) (by decide)

/-- C6 counterexample: a refresh whose 200 body carries an access token but
neither `expires_in` nor `expires_at`.  The record persisted to the token
file has an access token and no `expires_at`, contradicting the original
unconditional claim. -/
theorem persisted_expires_cex :
    (refreshToken wNoExp sBase).1 = some bodyNoExp ∧
    bodyNoExp.access_token.isSome = true ∧
    bodyNoExp.expires_at = none ∧
    (refreshToken wNoExp sBase).2.1.fs.target = some bodyNoExp := by
  refine ⟨by decide, by decide, by decide, by decide⟩

/-! ## C10 -/

/-- C10 (amended): when a refresh succeeds and the response body omits
`refresh_token`, the manager's in-memory refresh token is retained unchanged,
while the record it persists is the response body with only expiry
normalisation applied (so it still carries no `refresh_token` field).  (The
original claim's "response body as returned" fails when the body carries
`expires_in` without `expires_at`: the persisted record additionally gains
the computed `expires_at`.) -/
theorem refresh_missing_refresh_retained (w : World) (s : ManagerState) (td : TokenJson)
    (h : (refreshToken w s).1 = some td) (hn : td.refresh_token = none) :
    (refreshToken w s).2.1.refresh_token = s.refresh_token ∧
    (∃ body, w.refreshResp = .resp 200 (.ok body) ∧
      td = normalizeTokenData w.now body ∧ body.refresh_token = none) ∧
    saveToken s.tokenFileConfigured w.save s.fs td =
      .ok (refreshToken w s).2.1.fs := by
  obtain ⟨_, hsome⟩ := refresh_token_spec w s
  obtain ⟨body, a, uid, hr, hnorm, hta, hex, hsa, hsr, hsu, hsave⟩ := hsome td h
  have hbr : body.refresh_token = none := by
    have hh : td.refresh_token = (normalizeTokenData w.now body).refresh_token := by
      rw [hnorm]
    rw [normalize_refresh] at hh
    rw [← hh]
    exact hn
  refine ⟨?_, ⟨body, hr, hnorm, hbr⟩, hsave⟩
  rw [hsr, hn]

/-- C10 witness: a refresh body with no `refresh_token` and no expiry fields
leaves the stored refresh token unchanged. -/
theorem refresh_missing_refresh_retained_witness :
    (refreshToken wNoExp sBase).2.1.refresh_token = sBase.refresh_token :=
  (refresh_missing_refresh_retained wNoExp sBase bodyNoExp (by decide) (by decide)).1

/-- C10 counterexample: a refresh body `{access_token: good, expires_in:
3600}` with no `refresh_token`.  The in-memory refresh token is retained, but
the persisted record is not the response body as returned: normalisation has
added `expires_at`. -/
theorem refresh_record_cex :
    (refreshToken wExpIn sBase).1 = some ⟨some "good", none, some 3600, some 3600⟩ ∧
    bodyExpIn.refresh_token = none ∧
    (⟨some "good", none, some 3600, some 3600⟩ : TokenJson) ≠ bodyExpIn ∧
    (refreshToken wExpIn sBase).2.1.fs.target =
      some ⟨some "good", none, some 3600, some 3600⟩ ∧
    (refreshToken wExpIn sBase).2.1.refresh_token = sBase.refresh_token := by
  refine ⟨by decide, by decide, by decide, by decide, by decide⟩

/-! ## C8 -/

lemma handle_again_ge (r : PollResp) (i i1 : Int)
    (h : handlePollError r i = .again i1) : i ≤ i1 := by
  simp only [handlePollError] at h
  split_ifs at h <;> injection h with h2 <;> omega

lemma pollLoop_isSome (w : World) (s : ManagerState) :
    ∀ (n k fuel : Nat) (i : Int), w.pollClock (k + n) - w.startTime > 300 → n < fuel →
      (pollLoop w s fuel k i).isSome := by
  intro n
  induction n with
  | zero =>
    intro k fuel i hclk hn
    cases fuel with
    | zero => exact absurd hn (by omega)
    | succ m =>
      simp only [Nat.add_zero] at hclk
      simp [pollLoop, hclk]
  | succ n ih =>
    intro k fuel i hclk hn
    cases fuel with
    | zero => exact absurd hn (by omega)
    | succ m =>
      by_cases htime : w.pollClock k - w.startTime > 300
      · simp [pollLoop, htime]
      · cases hpk : w.pollStream k with
        | exn msg => simp [pollLoop, htime, hpk]
        | resp r =>
          by_cases h200 : r.status = 200
          · cases hj : r.json <;> simp [pollLoop, htime, hpk, h200, hj]
          · cases hh : handlePollError r i with
            | failure msg => simp [pollLoop, htime, hpk, h200, hh]
            | again i1 =>
              have hred : pollLoop w s (m + 1) k i = pollLoop w s m (k + 1) i1 := by
                simp [pollLoop, htime, hpk, h200, hh]
              rw [hred]
              apply ih (k + 1) m i1
              · have harg : k + 1 + n = k + (n + 1) := by omega
                rw [harg]
                exact hclk
              · omega

/-- C8: the device-flow polling loop always terminates: some recursion bound
makes every run end with a poll success, a terminal poll failure, or the
timed-out failure once the wall clock passes the fixed 300-second ceiling.
The hypothesis states the physical fact the source relies on: the wall-clock
readings taken at the ceiling checks grow without bound, since every
iteration sleeps and performs an HTTP round trip.  The second conjunct is the
claim's interval discipline: the dispatch never decreases the poll interval
(it keeps it, or increases it by 2 on slow_down). -/
theorem device_flow_terminates (w : World) (s : ManagerState)
    (hdiv : ∀ T : Int, ∃ k : Nat, T < w.pollClock k) :
    (∃ fuel x, deviceFlowAuth w fuel s = some x) ∧
    (∀ r i i1, handlePollError r i = StepResult.again i1 → i ≤ i1) := by
  refine ⟨?_, fun r i i1 h => handle_again_ge r i i1 h⟩
  obtain ⟨k0, hk0⟩ := hdiv (w.startTime + 300)
  rcases hg : getClient w s with ⟨res, s1, e1⟩
  cases res with
  | error m =>
    exact ⟨1, (.error ("Device flow authentication error: " ++ m), s1,
      e1 ++ [Effect.deviceFlowRun]), by simp [deviceFlowAuth, hg]⟩
  | ok u =>
    cases hdc : w.deviceCodeResp with
    | error m =>
      exact ⟨1, (.error ("Device flow authentication error: " ++ m), s1,
        e1 ++ [Effect.deviceFlowRun]), by simp [deviceFlowAuth, hg, hdc]⟩
    | ok dc =>
      cases hdcc : dc.device_code with
      | none =>
        exact ⟨1, (.error "Device flow authentication error: missing device_code", s1,
          e1 ++ [Effect.deviceFlowRun]), by simp [deviceFlowAuth, hg, hdc, hdcc]⟩
      | some code =>
        have hclk : w.pollClock (0 + k0) - w.startTime > 300 := by
          simp only [Nat.zero_add]
          omega
        have hpoll := pollLoop_isSome w s1 k0 0 (k0 + 1) (dc.interval.getD 5) hclk
          (by omega)
        obtain ⟨x, hx⟩ := Option.isSome_iff_exists.mp hpoll
        obtain ⟨r2, s2⟩ := x
        exact ⟨k0 + 1, (r2, s2, e1 ++ [Effect.deviceFlowRun]),
          by simp [deviceFlowAuth, hg, hdc, hdcc, hx]⟩

/-- C8 witness: in a world whose wall clock advances 5 seconds per iteration
and whose first poll answers with `expired_token`, the device flow
terminates. -/
theorem device_flow_terminates_witness :
    ∃ fuel x, deviceFlowAuth wExpired fuel sBase = some x :=
  (device_flow_terminates wExpired sBase (fun T => ⟨T.toNat + 1, by
    simp only [wExpired, baseWorld]
    omega⟩)).1

/-! ## C9 -/

/-- C9: whenever the in-memory access token is reported valid by
`checkTokenExpiry`, `ensureAuthenticated` returns success immediately with
the manager state unchanged in every field and an empty effect trace: no
metadata fetch, no token-file read, no refresh POST and no device flow run,
for every possible world and recursion bound. -/
theorem ensure_authenticated_fast_path (w : World) (fuel : Nat) (s : ManagerState)
    (h : (checkTokenExpiry w.decode w.now
      ⟨s.access_token, s.refresh_token, none, none⟩).1 = true) :
    ensureAuthenticated w fuel s = some (.ok true, s, []) := by
  have hT : strTruthy s.access_token = true := strTruthy_of_checkValid h
  unfold ensureAuthenticated
  simp [hT, h]

/-- C9 witness: a manager holding the valid token `good` returns success
immediately with no effects in a world where every network interaction would
fail. -/
theorem ensure_authenticated_fast_path_witness :
    ensureAuthenticated wNoExp 3 sGood = some (.ok true, sGood, []) :=
  ensure_authenticated_fast_path wNoExp 3 sGood (by decide)

end EvergreenOIDC
